import Mathlib

/-!
Verification of the signed-exchange (SXG) demo server.

The Go sources under scrutiny are `part_000` (exchange construction,
header-integrity oracle, HTTP handler) and `gae/cert_handler.go` (OCSP
fetch, certificate-chain assembly).  The server builds on the WICG
`signedexchange` library, which is not part of the repository; the library
operations the repository calls (`NewExchange`, `MiEncodePayload`,
`DumpExchangeHeaders`, `AddSignatureHeader`) are modelled here from the
specification's description of the payload encoder, the exchange signer
and the exchange assembler.  All byte strings are `List Nat` with entries
below 256, and all arithmetic is `Nat` with explicit reduction modulo
2 ^ 32 where the source uses 32-bit words.
-/

set_option maxRecDepth 8000
set_option linter.unusedVariables false

/-! ## Byte and word utilities -/

/-- Word reduction modulo 2 ^ 32, the word size SHA-256 computes with. -/
def m32 (x : Nat) : Nat := x % 4294967296

/-- Big-endian 4-byte encoding of a natural number below 2 ^ 32. -/
def be32 (n : Nat) : List Nat :=
  [n / 16777216 % 256, n / 65536 % 256, n / 256 % 256, n % 256]

/-- Big-endian 8-byte encoding of a natural number below 2 ^ 64. -/
def be64 (n : Nat) : List Nat :=
  be32 (n / 4294967296) ++ be32 (n % 4294967296)

/-- ASCII bytes of a string.  Every string the server serializes is ASCII,
so the code points are the UTF-8 bytes. -/
def strBytes (s : String) : List Nat := s.data.map Char.toNat

/-- Bytewise lexicographic order on byte strings, used to give the header
serialization its canonical order. -/
def natListLe : List Nat → List Nat → Bool
  | [], _ => true
  | _ :: _, [] => false
  | a :: as, b :: bs =>
    if a < b then true else if b < a then false else natListLe as bs

/-- Lexicographic order on strings via their bytes. -/
def strLe (a b : String) : Bool := natListLe (strBytes a) (strBytes b)

/-- Chunking worker, structurally recursive on a fuel argument so that it
reduces inside the kernel; with `rs ≥ 1` a fuel of `l.length` always
suffices, since every step consumes at least one element. -/
def chunksGo (rs : Nat) : Nat → List α → List (List α)
  | _, [] => []
  | 0, l => [l]
  | fuel + 1, x :: xs => (x :: xs).take rs :: chunksGo rs fuel ((x :: xs).drop rs)

/-- Split a list into consecutive chunks of `rs` elements (the last chunk
may be shorter).  `rs = 0` degenerates to a single chunk so the function
stays total; every caller passes a positive record size. -/
def chunks (rs : Nat) (l : List α) : List (List α) :=
  if rs = 0 then [l] else chunksGo rs l.length l

/-! ## SHA-256

An executable SHA-256 over byte lists.  The round constants are not
transcribed: they are computed, as FIPS 180-4 defines them, from the
fractional parts of the square and cube roots of the first primes, using
integer square and cube roots. -/

/-- Integer cube root by binary search; `cbrtGo n fuel lo hi` maintains
`lo ^ 3 ≤ n < hi ^ 3`. -/
def cbrtGo (n : Nat) : Nat → Nat → Nat → Nat
  | 0, lo, _ => lo
  | fuel + 1, lo, hi =>
    if hi ≤ lo + 1 then lo
    else
      let mid := (lo + hi) / 2
      if mid ^ 3 ≤ n then cbrtGo n fuel mid hi else cbrtGo n fuel lo mid

/-- Integer cube root (floor), for inputs below 2 ^ 108. -/
def cbrt (n : Nat) : Nat := cbrtGo n 64 0 68719476736

/-- Integer square root by binary search; `sqrtGo n fuel lo hi` maintains
`lo ^ 2 ≤ n < hi ^ 2`. -/
def sqrtGo (n : Nat) : Nat → Nat → Nat → Nat
  | 0, lo, _ => lo
  | fuel + 1, lo, hi =>
    if hi ≤ lo + 1 then lo
    else
      let mid := (lo + hi) / 2
      if mid ^ 2 ≤ n then sqrtGo n fuel mid hi else sqrtGo n fuel lo mid

/-- Integer square root (floor), for inputs below 2 ^ 72. -/
def sqrtFl (n : Nat) : Nat := sqrtGo n 64 0 68719476736

/-- The first sixty-four primes, sources of the SHA-256 round constants. -/
def primes64 : List Nat :=
  [2, 3, 5, 7, 11, 13, 17, 19, 23, 29, 31, 37, 41, 43, 47, 53,
   59, 61, 67, 71, 73, 79, 83, 89, 97, 101, 103, 107, 109, 113, 127, 131,
   137, 139, 149, 151, 157, 163, 167, 173, 179, 181, 191, 193, 197, 199, 211, 223,
   227, 229, 233, 239, 241, 251, 257, 263, 269, 271, 277, 281, 283, 293, 307, 311]

/-- SHA-256 round constants: first 32 bits of the fractional parts of the
cube roots of the first sixty-four primes. -/
def sha256K : List Nat := primes64.map (fun p => m32 (cbrt (p * 2 ^ 96)))

/-- SHA-256 initial hash value: first 32 bits of the fractional parts of
the square roots of the first eight primes. -/
def sha256H0 : List Nat :=
  [2, 3, 5, 7, 11, 13, 17, 19].map (fun p => m32 (sqrtFl (p * 2 ^ 64)))

/-- Right rotation of a 32-bit word. -/
def rotr32 (n x : Nat) : Nat := m32 ((x >>> n) ||| (x <<< (32 - n)))

/-- Bitwise complement of a 32-bit word. -/
def not32 (x : Nat) : Nat := x ^^^ 4294967295

/-- SHA-256 message-schedule sigma-0. -/
def ssig0 (x : Nat) : Nat := rotr32 7 x ^^^ rotr32 18 x ^^^ (x >>> 3)

/-- SHA-256 message-schedule sigma-1. -/
def ssig1 (x : Nat) : Nat := rotr32 17 x ^^^ rotr32 19 x ^^^ (x >>> 10)

/-- SHA-256 compression Sigma-0. -/
def bsig0 (x : Nat) : Nat := rotr32 2 x ^^^ rotr32 13 x ^^^ rotr32 22 x

/-- SHA-256 compression Sigma-1. -/
def bsig1 (x : Nat) : Nat := rotr32 6 x ^^^ rotr32 11 x ^^^ rotr32 25 x

/-- SHA-256 choose function. -/
def chFn (e f g : Nat) : Nat := (e &&& f) ^^^ (not32 e &&& g)

/-- SHA-256 majority function. -/
def majFn (a b c : Nat) : Nat := (a &&& b) ^^^ (a &&& c) ^^^ (b &&& c)

/-- Merkle–Damgård padding: append `0x80`, zeros, and the 64-bit bit
length, reaching a multiple of 64 bytes. -/
def padMsg (msg : List Nat) : List Nat :=
  msg ++ [128] ++ List.replicate ((119 - msg.length % 64) % 64) 0
      ++ be64 (8 * msg.length)

/-- Pack four bytes into one big-endian 32-bit word. -/
def toWord (l : List Nat) : Nat := l.foldl (fun acc b => acc * 256 + b) 0

/-- One message-schedule extension step: append word sixteen-back combined
with its neighbours. -/
def schedStep (w : List Nat) : List Nat :=
  w ++ [m32 (ssig1 (w.getD (w.length - 2) 0) + w.getD (w.length - 7) 0
       + ssig0 (w.getD (w.length - 15) 0) + w.getD (w.length - 16) 0)]

/-- Full 64-word message schedule from the 16 block words. -/
def schedule (w16 : List Nat) : List Nat :=
  (List.range 48).foldl (fun w _ => schedStep w) w16

/-- One SHA-256 round on the eight-word working state. -/
def roundStep (st : List Nat) (kw : Nat × Nat) : List Nat :=
  match st with
  | [a, b, c, d, e, f, g, h] =>
    let t1 := m32 (h + bsig1 e + chFn e f g + kw.1 + kw.2)
    let t2 := m32 (bsig0 a + majFn a b c)
    [m32 (t1 + t2), a, b, c, m32 (d + t1), e, f, g]
  | _ => st

/-- SHA-256 compression of one 64-byte block into the chaining value. -/
def compress (h : List Nat) (block : List Nat) : List Nat :=
  let w := schedule ((chunks 4 block).map toWord)
  let st := (sha256K.zip w).foldl roundStep h
  (h.zip st).map (fun p => m32 (p.1 + p.2))

/-- SHA-256 of a byte list, as 32 bytes. -/
def sha256 (msg : List Nat) : List Nat :=
  ((chunks 64 (padMsg msg)).foldl compress sha256H0).flatMap be32

/-- Sanity: the computed initial hash value opens with the published
word `0x6a09e667` (the fractional square root of two). -/
theorem sha256H0_first_word : sha256H0.headD 0 = 0x6a09e667 := by decide

/-- Sanity: the computed round constants open with the published word
`0x428a2f98` (the fractional cube root of two). -/
theorem sha256K_first_word : sha256K.headD 0 = 0x428a2f98 := by decide

/-! ## Base64 -/

/-- The standard base64 alphabet, as `encoding/base64.StdEncoding` uses. -/
def b64Alphabet : List Char :=
  "ABCDEFGHIJKLMNOPQRSTUVWXYZabcdefghijklmnopqrstuvwxyz0123456789+/".data

/-- Character for one 6-bit group. -/
def b64Char (n : Nat) : Char := b64Alphabet.getD n 'A'

/-- Base64 encoding with padding, grouping bytes in threes. -/
def b64Go : List Nat → List Char
  | a :: b :: c :: rest =>
    let n := a * 65536 + b * 256 + c
    b64Char (n / 262144) :: b64Char (n / 4096 % 64) :: b64Char (n / 64 % 64)
      :: b64Char (n % 64) :: b64Go rest
  | [a, b] =>
    let n := a * 65536 + b * 256
    [b64Char (n / 262144), b64Char (n / 4096 % 64), b64Char (n / 64 % 64), '=']
  | [a] =>
    let n := a * 65536
    [b64Char (n / 262144), b64Char (n / 4096 % 64), '=', '=']
  | [] => []

/-- `base64.StdEncoding.EncodeToString`. -/
def base64Encode (bs : List Nat) : String := String.mk (b64Go bs)

/-- Sanity: base64 of the ASCII bytes of "Man" is "TWFu". -/
theorem base64_man_vector : base64Encode (strBytes "Man") = "TWFu" := by decide

/-! ## HTTP headers

Go's `http.Header` is a map from canonicalized field names to value
slices; insertion order inside one name is kept, and the exchange wire
format lowercases names and serializes the map in a canonical sorted
order.  The model keeps an insertion-ordered pair list, and the
serialization below lowercases, groups and sorts, reproducing the
canonical form. -/

/-- An `http.Header`: an insertion-ordered list of (name, value) pairs. -/
abbrev Header := List (String × String)

/-- `http.Header.Add`: append one (name, value) pair. -/
def headerAdd (h : Header) (k v : String) : Header := h ++ [(k, v)]

/-- `http.Header.Set`: drop previous values for the name, keep one. -/
def headerSet (h : Header) (k v : String) : Header :=
  h.filter (fun p => !(p.1 == k)) ++ [(k, v)]

/-- ASCII lowercasing of a header name. -/
def lowerStr (s : String) : String := String.mk (s.data.map Char.toLower)

/-- Lowercase every name in a header list. -/
def lowerPairs (h : Header) : Header := h.map (fun p => (lowerStr p.1, p.2))

/-- Names in order of first occurrence, without repetition. -/
def keysOf : Header → List String
  | [] => []
  | (k, _) :: rest => k :: (keysOf rest).filter (fun k2 => !(k2 == k))

/-- All values carried by one name, in insertion order. -/
def valuesFor (h : Header) (k : String) : List String :=
  (h.filter (fun p => p.1 == k)).map Prod.snd

/-- Join multiple field values the way Go joins a value slice. -/
def joinComma (l : List String) : String := String.intercalate ", " l

/-- Collapse a header list into one (name, joined value) entry per name,
in order of first occurrence — the map view of `http.Header`. -/
def headerGroup (h : Header) : Header :=
  (keysOf h).map (fun k => (k, joinComma (valuesFor h k)))

/-- Insert one pair into a name-sorted list. -/
def insertPair (p : String × String) : Header → Header
  | [] => [p]
  | q :: rest => if strLe p.1 q.1 then p :: q :: rest else q :: insertPair p rest

/-- Sort header entries by name — the canonical map order of the exchange
header serialization. -/
def sortPairs (h : Header) : Header := h.foldr insertPair []

/-- Length-prefixed byte serialization of one string. -/
def encodeStr (s : String) : List Nat := be64 (strBytes s).length ++ strBytes s

/-- Serialization of one (name, value) entry. -/
def encodePair (p : String × String) : List Nat := encodeStr p.1 ++ encodeStr p.2

/-- Serialization of a whole entry list. -/
def encodePairs (h : Header) : List Nat := h.flatMap encodePair

/-! ## The signed-exchange model

Modelled from the spec: the WICG `signedexchange` library used by the
repository is not under `src/`, so `NewExchange`, `MiEncodePayload`,
`DumpExchangeHeaders` and `AddSignatureHeader` are reconstructed from the
spec's payload-encoder (4.1), signer (4.3) and assembler (4.4) contracts:
the encoder hash-chains fixed-size records and injects the `MI` headers,
the header dump serializes the request/response header block in one
canonical byte order, and the signer binds URL, header block, chain and
validity URLs and the two timestamps, with errors returned, never
panicking.  Timestamps are seconds as `Nat`; the signing primitive,
private key and randomness source are folded into one supplied function
from message bytes to signature bytes or a `SigningError`. -/

/-- The exchange version; the server only ever passes `version.Version1b3`. -/
inductive Version
  | version1b3
deriving DecidableEq

/-- Error taxonomy of the spec (section 7). `message` mirrors Go's
`err.Error()`. -/
inductive CoreErr
  | configError (msg : String)
  | networkError (msg : String)
  | protocolError (msg : String)
  | encodingError (msg : String)
  | signingError (msg : String)
deriving DecidableEq

/-- The message a `CoreErr` shows, as `err.Error()` would. -/
def CoreErr.message : CoreErr → String
  | .configError m => m
  | .networkError m => m
  | .protocolError m => m
  | .encodingError m => m
  | .signingError m => m

/-- The signature header: signing window, chain/validity URLs and the
signature bytes (spec 4.3, SignatureHeader). -/
structure SigHeader where
  date : Nat
  expires : Nat
  certUrl : Option String
  validityUrl : Option String
  sig : List Nat

/-- A `signedexchange.Exchange` value. -/
structure Exchange where
  ver : Version
  requestURI : String
  requestMethod : String
  reqHeader : Header
  responseStatus : Nat
  resHeader : Header
  payload : List Nat
  signatureHeaderValue : Option SigHeader

/-- A placeholder exchange, used only as the default of total match
fallbacks in concrete witnesses. -/
def defaultExchange : Exchange :=
  ⟨.version1b3, "", "GET", [], 0, [], [], none⟩

/-- `signedexchange.NewExchange`: record the request and response data. -/
def newExchange (ver : Version) (uri method : String) (reqHeader : Header)
    (status : Nat) (resHeader : Header) (payload : List Nat) : Exchange :=
  ⟨ver, uri, method, reqHeader, status, resHeader, payload, none⟩

/-- The record sequence of the MI encoding: the payload in `rs`-byte
records, an empty payload giving one empty record (spec 4.1 edge case). -/
def miRecords (rs : Nat) (payload : List Nat) : List (List Nat) :=
  match payload with
  | [] => [[]]
  | p => chunks rs p

/-- The MI hash chain, last record first: the last record is hashed with a
`0` terminator, every earlier record with its successor's digest and a `1`
flag; the head is the whole-payload digest (spec 4.1). -/
def miChain : List (List Nat) → List (List Nat)
  | [] => []
  | [r] => [sha256 (r ++ [0])]
  | r :: s :: rest =>
    let ps := miChain (s :: rest)
    sha256 (r ++ ps.headD [] ++ [1]) :: ps

/-- The whole-payload MI digest. -/
def miDigest (records : List (List Nat)) : List Nat := (miChain records).headD []

/-- Interleave records with the succeeding proofs to form the encoded body. -/
def interleaveRP : List (List Nat) → List (List Nat) → List Nat
  | [], _ => []
  | r :: _, [] => r
  | r :: rs, p :: ps => r ++ p ++ interleaveRP rs ps

/-- The successful effect of MI encoding on an exchange: inject the
`content-encoding` and `digest` response headers and replace the payload
with the record-size-prefixed encoded body. -/
def miTransform (rs : Nat) (e : Exchange) : Exchange :=
  let records := miRecords rs e.payload
  { e with
    resHeader :=
      headerAdd (headerAdd e.resHeader "Content-Encoding" "mi-sha256-03")
        "Digest" ("mi-sha256-03=" ++ base64Encode (miDigest records)),
    payload := be64 rs ++ interleaveRP records (miChain records).tail }

/-- `Exchange.MiEncodePayload`: fail on a non-positive record size,
otherwise apply the MI transformation. -/
def miEncodePayload (rs : Nat) (e : Exchange) : Except CoreErr Exchange :=
  if rs = 0 then .error (.encodingError "record size must be positive")
  else .ok (miTransform rs e)

/-- At the record size 4096 every caller passes, MI encoding always
succeeds. -/
theorem miEncodePayload_4096 (e : Exchange) :
    miEncodePayload 4096 e = .ok (miTransform 4096 e) := rfl

/-- The canonical byte serialization of the request header block (with
the `:method` pseudo-header) followed by the response header block (with
`:status`), each lowercased, grouped and name-sorted.  The signature
value is not part of the block — it signs it. -/
def dumpBytes (e : Exchange) : List Nat :=
  encodePairs (sortPairs (headerGroup (lowerPairs
      ((":method", e.requestMethod) :: e.reqHeader))))
    ++ encodePairs (sortPairs (headerGroup (lowerPairs
        ((":status", toString e.responseStatus) :: e.resHeader))))

/-- `Exchange.DumpExchangeHeaders`: serialize the header block; with an
in-memory buffer the write cannot fail. -/
def dumpExchangeHeaders (e : Exchange) : Except CoreErr (List Nat) :=
  .ok (dumpBytes e)

/-- A `signedexchange.Signer`: the signing window, chain and validity URLs
and the signing primitive (certificates, private key and randomness folded
into `signFn`). -/
structure Signer where
  date : Nat
  expires : Nat
  certUrl : Option String
  validityUrl : Option String
  signFn : List Nat → Except CoreErr (List Nat)

/-- `Exchange.AddSignatureHeader`: sign the canonical structure binding
the URL, the header block, the chain and validity URLs and the window,
and store the resulting signature header on the exchange. -/
def addSignatureHeader (s : Signer) (e : Exchange) : Except CoreErr Exchange :=
  match dumpExchangeHeaders e with
  | .error err => .error err
  | .ok headerBlock =>
    let msg := strBytes e.requestURI ++ headerBlock
      ++ strBytes ((s.certUrl).getD "") ++ strBytes ((s.validityUrl).getD "")
      ++ be64 s.date ++ be64 s.expires
    match s.signFn msg with
    | .error err => .error err
    | .ok sig =>
      let sh : SigHeader := ⟨s.date, s.expires, s.certUrl, s.validityUrl, sig⟩
      .ok { e with signatureHeaderValue := some sh }

/-- `net/url.Parse`, to the precision the server observes: it yields a
parsed URL for any space-free string (it does not demand HTTPS), and the
server discards its error anyway. -/
def urlParse (s : String) : Option String :=
  if s.data.any (fun c => c == ' ') then none else some s

/-! ## The repository's exchange construction (`part_000`) -/

/-- The `exchangeParams` struct of `part_000`.  The Go fields `certs`,
`prvKey` and `rand` exist only to drive the library's signing primitive;
they are folded into the one `signFn` function the `Signer` model takes.
Time is seconds as `Nat`. -/
structure ExchangeParams where
  ver : Version
  contentUrl : String
  certUrl : String
  validityUrl : String
  contentType : String
  resHeader : Header
  payload : List Nat
  date : Nat
  signFn : List Nat → Except CoreErr (List Nat)

/-- `createExchange` of `part_000` (lines 59–87): parse the two URLs with
errors discarded, append the `content-type` response header, build the
exchange, MI-encode the payload at record size 4096, and sign with
`date`/`date + 24h`.  The Go `if s == nil` check on the freshly built
signer struct pointer is statically dead and is not modelled.  The second
component is the (mutated) params value the caller observes afterwards. -/
def createExchange (params : ExchangeParams) :
    Except CoreErr Exchange × ExchangeParams :=
  let certUrl := urlParse params.certUrl
  let validityUrl := urlParse params.validityUrl
  let reqHeader : Header := []
  let params' :=
    { params with
        resHeader := headerAdd params.resHeader "content-type" params.contentType }
  let e := newExchange params.ver params.contentUrl "GET" reqHeader 200
      params'.resHeader params.payload
  match miEncodePayload 4096 e with
  | .error err => (.error err, params')
  | .ok e2 =>
    let s : Signer :=
      ⟨params.date, params.date + 24 * 60 * 60, certUrl, validityUrl, params.signFn⟩
    match addSignatureHeader s e2 with
    | .error err => (.error err, params')
    | .ok e3 => (.ok e3, params')

/-- `getHeaderIntegrity` of `part_000` (lines 89–110): rebuild the
response-header block a full exchange for the resource would carry
(fixed cache-control, the content type, the CORS header when asked,
and the MI headers the encoder injects), serialize it, and return
`"sha256-" + base64(SHA-256(block))`; any encoding failure degrades to
the empty string.  The `host` argument is accepted and, as in the
source, never used. -/
def getHeaderIntegrity (domainAndPath : String) (payload : List Nat)
    (contentType : String) (host : String) (cors : Bool) : String :=
  let contentUrl := "https://" ++ domainAndPath
  let reqHeader : Header := []
  let resHeader :=
    headerAdd (headerAdd ([] : Header) "cache-control" "public, max-age=600")
      "content-type" contentType
  let resHeader :=
    if cors then headerAdd resHeader "Access-Control-Allow-Origin" "*"
    else resHeader
  let e := newExchange .version1b3 contentUrl "GET" reqHeader 200 resHeader payload
  match miEncodePayload 4096 e with
  | .error _ => ""
  | .ok e2 =>
    match dumpExchangeHeaders e2 with
    | .error _ => ""
    | .ok headerBuf => "sha256-" ++ base64Encode (sha256 headerBuf)

/-! ## OCSP fetch (`gae/cert_handler.go`) -/

/-- An `x509.Certificate`, to the precision `getOCSP` observes: its list
of advertised OCSP responder URLs. -/
structure Certificate where
  ocspServer : List String
deriving DecidableEq

/-- The effectful collaborators of `getOCSP`: `ocsp.CreateRequest` and the
HTTP POST round trip (request building, sending and body reading folded
into one call that may fail with a network error). -/
structure OcspEnv where
  createRequest : Certificate → Certificate → Except CoreErr (List Nat)
  post : String → List Nat → Except CoreErr (List Nat)

/-- `getOCSP` of `gae/cert_handler.go` (lines 14–47): reject a certificate
list with no issuer, reject a leaf with no advertised responder, then
build and POST the OCSP request to the first responder URL.  The two
rejections are `errors.New` values falling in the spec's ProtocolError
class (section 7). -/
def getOCSP (certs : List Certificate) (net : OcspEnv) :
    Except CoreErr (List Nat) :=
  match certs with
  | cert :: issuer :: _ =>
    match cert.ocspServer with
    | [] => .error (.protocolError "No OCSPServer")
    | ocspUrl :: _ =>
      match net.createRequest cert issuer with
      | .error err => .error err
      | .ok buffer => net.post ocspUrl buffer
  | _ => .error (.protocolError "failed to parse cert")

/-! ## Serving (`part_000`) -/

/-- What a handler invocation writes: either the exchange bytes under the
signed-exchange content type, or an `http.Error` status and body. -/
inductive ServeResult
  | wrote (wHeader : Header) (e : Exchange)
  | httpError (wHeader : Header) (status : Nat) (body : String)

/-- `serveExchange` of `part_000` (lines 112–122): build the exchange; on
failure answer HTTP 500 with the error's message as body, on success set
the signed-exchange response headers and write the exchange. -/
def serveExchange (params : ExchangeParams) (q : List (String × String))
    (wHeader : Header) : ServeResult :=
  match (createExchange params).1 with
  | .error err => .httpError wHeader 500 err.message
  | .ok e =>
    .wrote (headerSet (headerSet wHeader "Content-Type"
        "application/signed-exchange;v=b3") "X-Content-Type-Options" "nosniff") e

/-- The default payload constant of `part_000`. -/
def defaultPayload : String :=
  "<!DOCTYPE html>\n<html>\n  <head>\n    <title>Hello SignedHTTPExchange</title>\n  </head>\n  <body>\n    <div id=\"message\">\n      <h1>Hello SignedHTTPExchange</h1>\n    </div>\n  </body>\n</html>\n"

/-- The process-lifetime globals `signedExchangeHandler` reads: the two
signing identities (their signing primitives and chain URL paths), the
two domain names derived from the leaf certificates, the canned payloads
loaded from disk at startup, and the clock.  All are initialized before
serving and read-only afterwards (spec sections 3 and 5). -/
structure Env where
  demoDomainName : String
  altDemoDomainName : String
  certURLPath : String
  altCertURLPath : String
  now : Nat
  signFn : List Nat → Except CoreErr (List Nat)
  altSignFn : List Nat → Except CoreErr (List Nat)
  amptestnocdn_payload : List Nat
  v0js_payload : List Nat
  nikko_320_jpg_payload : List Nat
  nikko_640_jpg_payload : List Nat
  nikko_320_webp_payload : List Nat
  nikko_640_webp_payload : List Nat
  wapuro_mincho_payload : List Nat
  fonttest_payload : List Nat

/-- The scenario table of `signedExchangeHandler` (`part_000` lines
124–539): for each known request path, exactly the `exchangeParams`
value and the accumulated `w.Header()` link decorations that the
corresponding switch arm hands to `serveExchange`; `none` for the
switch's default arm.  `rHost` is `r.Host`.  The query string plays no
part in scenario selection. -/
def scenarioSelection (env : Env) (rHost : String) (path : String) :
    Option (ExchangeParams × Header) :=
  let params : ExchangeParams :=
    { ver := .version1b3
      contentUrl := "https://" ++ env.demoDomainName ++ "/hello.html"
      certUrl := "https://" ++ rHost ++ env.certURLPath
      validityUrl := "https://" ++ env.demoDomainName ++ "/cert/null.validity.msg"
      contentType := "text/html; charset=utf-8"
      resHeader := []
      payload := strBytes defaultPayload
      date := env.now - 10
      signFn := env.signFn }
  match path with
  | "/sxg/hello.sxg" => some (params, [])
  | "/sxg/alt.sxg" =>
    some
      ({ params with
          signFn := env.altSignFn
          contentUrl := "https://" ++ env.altDemoDomainName ++ "/hello.html"
          certUrl := "https://" ++ rHost ++ env.altCertURLPath
          validityUrl :=
            "https://" ++ env.altDemoDomainName ++ "/cert/null.validity.msg" } ,
       [])
  | "/sxg/wapuro-mincho.woff2.sxg" =>
    some
      ({ params with
          signFn := env.altSignFn
          contentUrl :=
            "https://" ++ env.altDemoDomainName ++ "/fonts/wapuro-mincho.woff2"
          certUrl := "https://" ++ rHost ++ env.altCertURLPath
          validityUrl :=
            "https://" ++ env.altDemoDomainName ++ "/cert/null.validity.msg"
          payload := env.wapuro_mincho_payload
          contentType := "font/woff2"
          resHeader :=
            headerAdd params.resHeader "cache-control" "public, max-age=600" } ,
       [])
  | "/sxg/fonttest.sxg" =>
    let w := headerAdd [] "link"
      ("<https://" ++ rHost ++ "/sxg/wapuro-mincho.woff2.sxg>;"
        ++ "rel=\"alternate\";type=\"application/signed-exchange;v=b3\";"
        ++ "anchor=\"https://" ++ env.altDemoDomainName
        ++ "/fonts/wapuro-mincho.woff2\";")
    let rh := headerAdd params.resHeader "link"
      ("<https://" ++ env.altDemoDomainName ++ "/fonts/wapuro-mincho.woff2>;"
        ++ "rel=\"allowed-alt-sxg\";"
        ++ "header-integrity=\""
        ++ getHeaderIntegrity (env.altDemoDomainName ++ "/fonts/wapuro-mincho.woff2")
             env.wapuro_mincho_payload "font/woff2" rHost false ++ "\"")
    let rh := headerAdd rh "link"
      ("<https://" ++ env.altDemoDomainName ++ "/fonts/wapuro-mincho.woff2>;"
        ++ "rel=\"preload\";" ++ "as=\"font\";" ++ "type=\"font/woff2\";"
        ++ "crossorigin")
    some
      ({ params with
          contentUrl := "https://" ++ env.demoDomainName ++ "/amptest/fonttest.html"
          payload := env.fonttest_payload
          resHeader := rh } ,
       w)
  | "/sxg/cors_wapuro-mincho.woff2.sxg" =>
    some
      ({ params with
          signFn := env.altSignFn
          contentUrl :=
            "https://" ++ env.altDemoDomainName ++ "/fonts/wapuro-mincho.woff2"
          certUrl := "https://" ++ rHost ++ env.altCertURLPath
          validityUrl :=
            "https://" ++ env.altDemoDomainName ++ "/cert/null.validity.msg"
          payload := env.wapuro_mincho_payload
          contentType := "font/woff2"
          resHeader :=
            headerAdd
              (headerAdd params.resHeader "cache-control" "public, max-age=600")
              "Access-Control-Allow-Origin" "*" } ,
       [])
  | "/sxg/cors_fonttest.sxg" =>
    let w := headerAdd [] "link"
      ("<https://" ++ rHost ++ "/sxg/cors_wapuro-mincho.woff2.sxg>;"
        ++ "rel=\"alternate\";type=\"application/signed-exchange;v=b3\";"
        ++ "anchor=\"https://" ++ env.altDemoDomainName
        ++ "/fonts/wapuro-mincho.woff2\";")
    let rh := headerAdd params.resHeader "link"
      ("<https://" ++ env.altDemoDomainName ++ "/fonts/wapuro-mincho.woff2>;"
        ++ "rel=\"allowed-alt-sxg\";"
        ++ "header-integrity=\""
        ++ getHeaderIntegrity (env.altDemoDomainName ++ "/fonts/wapuro-mincho.woff2")
             env.wapuro_mincho_payload "font/woff2" rHost true ++ "\"")
    let rh := headerAdd rh "link"
      ("<https://" ++ env.altDemoDomainName ++ "/fonts/wapuro-mincho.woff2>;"
        ++ "rel=\"preload\";" ++ "as=\"font\";" ++ "type=\"font/woff2\";"
        ++ "crossorigin")
    some
      ({ params with
          contentUrl := "https://" ++ env.demoDomainName ++ "/amptest/fonttest.html"
          payload := env.fonttest_payload
          resHeader := rh } ,
       w)
  | "/sxg/amptestnocdn.sxg" =>
    some
      ({ params with
          contentUrl :=
            "https://" ++ env.demoDomainName ++ "/amptest/amptestnocdn.html"
          payload := env.amptestnocdn_payload } ,
       [])
  | "/sxg/amptestnocdn_js_preload.sxg" =>
    let w := headerAdd [] "link"
      ("<https://" ++ rHost ++ "/sxg/v0.sxg>;"
        ++ "rel=\"alternate\";type=\"application/signed-exchange;v=b3\";"
        ++ "anchor=\"https://" ++ env.demoDomainName ++ "/amptest/js/v0.js\";")
    let rh := headerAdd params.resHeader "link"
      ("<https://" ++ env.demoDomainName ++ "/amptest/js/v0.js>;"
        ++ "rel=\"allowed-alt-sxg\";"
        ++ "header-integrity=\""
        ++ getHeaderIntegrity (env.demoDomainName ++ "/amptest/js/v0.js")
             env.v0js_payload "text/javascript" rHost false ++ "\"")
    let rh := headerAdd rh "link"
      ("<https://" ++ env.demoDomainName ++ "/amptest/js/v0.js>;"
        ++ "rel=\"preload\";" ++ "as=\"script\"")
    some
      ({ params with
          contentUrl :=
            "https://" ++ env.demoDomainName ++ "/amptest/amptestnocdn.html"
          payload := env.amptestnocdn_payload
          resHeader := rh } ,
       w)
  | "/sxg/amptestnocdn_js_img_preload.sxg" =>
    let w := headerAdd [] "link"
      ("<https://" ++ rHost ++ "/sxg/v0.sxg>;"
        ++ "rel=\"alternate\";type=\"application/signed-exchange;v=b3\";"
        ++ "anchor=\"https://" ++ env.demoDomainName ++ "/amptest/js/v0.js\";")
    let rh := headerAdd params.resHeader "link"
      ("<https://" ++ env.demoDomainName ++ "/amptest/js/v0.js>;"
        ++ "rel=\"allowed-alt-sxg\";"
        ++ "header-integrity=\""
        ++ getHeaderIntegrity (env.demoDomainName ++ "/amptest/js/v0.js")
             env.v0js_payload "text/javascript" rHost false ++ "\"")
    let rh := headerAdd rh "link"
      ("<https://" ++ env.demoDomainName ++ "/amptest/js/v0.js>;"
        ++ "rel=\"preload\";" ++ "as=\"script\"")
    let w := headerAdd w "link"
      ("<https://" ++ rHost ++ "/sxg/nikko_320_jpg.sxg>;"
        ++ "rel=\"alternate\";type=\"application/signed-exchange;v=b3\";"
        ++ "anchor=\"https://" ++ env.demoDomainName
        ++ "/amptest/img/nikko_320.jpg\";")
    let w := headerAdd w "link"
      ("<https://" ++ rHost ++ "/sxg/nikko_640_jpg.sxg>;"
        ++ "rel=\"alternate\";type=\"application/signed-exchange;v=b3\";"
        ++ "anchor=\"https://" ++ env.demoDomainName
        ++ "/amptest/img/nikko_640.jpg\";")
    let rh := headerAdd rh "link"
      ("<https://" ++ env.demoDomainName ++ "/amptest/img/nikko_320.jpg>;"
        ++ "rel=\"allowed-alt-sxg\";"
        ++ "header-integrity=\""
        ++ getHeaderIntegrity (env.demoDomainName ++ "/amptest/img/nikko_320.jpg")
             env.nikko_320_jpg_payload "image/jpeg" rHost false ++ "\"")
    let rh := headerAdd rh "link"
      ("<https://" ++ env.demoDomainName ++ "/amptest/img/nikko_640.jpg>;"
        ++ "rel=\"allowed-alt-sxg\";"
        ++ "header-integrity=\""
        ++ getHeaderIntegrity (env.demoDomainName ++ "/amptest/img/nikko_640.jpg")
             env.nikko_640_jpg_payload "image/jpeg" rHost false ++ "\"")
    let rh := headerAdd rh "link"
      ("<https://" ++ env.demoDomainName ++ "/amptest/img/nikko_640.jpg>;"
        ++ "rel=\"preload\";as=\"image\";"
        ++ "imagesrcset=\"https://" ++ env.demoDomainName
        ++ "/amptest/img/nikko_640.jpg 640w, "
        ++ "https://" ++ env.demoDomainName ++ "/amptest/img/nikko_320.jpg 320w\";"
        ++ "imagesizes=\"(max-width: 640px) 100vw, 640px\"")
    some
      ({ params with
          contentUrl :=
            "https://" ++ env.demoDomainName ++ "/amptest/amptestnocdn.html"
          payload := env.amptestnocdn_payload
          resHeader := rh } ,
       w)
  | "/sxg/amptestnocdn_js_img_vary_preload.sxg" =>
    let w := headerAdd [] "link"
      ("<https://" ++ rHost ++ "/sxg/v0.sxg>;"
        ++ "rel=\"alternate\";type=\"application/signed-exchange;v=b3\";"
        ++ "anchor=\"https://" ++ env.demoDomainName ++ "/amptest/js/v0.js\";")
    let rh := headerAdd params.resHeader "link"
      ("<https://" ++ env.demoDomainName ++ "/amptest/js/v0.js>;"
        ++ "rel=\"allowed-alt-sxg\";"
        ++ "header-integrity=\""
        ++ getHeaderIntegrity (env.demoDomainName ++ "/amptest/js/v0.js")
             env.v0js_payload "text/javascript" rHost false ++ "\"")
    let rh := headerAdd rh "link"
      ("<https://" ++ env.demoDomainName ++ "/amptest/js/v0.js>;"
        ++ "rel=\"preload\";" ++ "as=\"script\"")
    let w := headerAdd w "link"
      ("<https://" ++ rHost ++ "/sxg/nikko_320_jpg.sxg>;"
        ++ "rel=\"alternate\";type=\"application/signed-exchange;v=b3\";"
        ++ "variants-04=\"accept;image/jpeg,image/webp\";"
        ++ "variant-key-04=\"image/jpeg\";"
        ++ "anchor=\"https://" ++ env.demoDomainName
        ++ "/amptest/img/nikko_320.jpg\";")
    let w := headerAdd w "link"
      ("<https://" ++ rHost ++ "/sxg/nikko_320_webp.sxg>;"
        ++ "rel=\"alternate\";type=\"application/signed-exchange;v=b3\";"
        ++ "variants-04=\"accept;image/jpeg,image/webp\";"
        ++ "variant-key-04=\"image/webp\";"
        ++ "anchor=\"https://" ++ env.demoDomainName
        ++ "/amptest/img/nikko_320.jpg\";")
    let w := headerAdd w "link"
      ("<https://" ++ rHost ++ "/sxg/nikko_640_jpg.sxg>;"
        ++ "rel=\"alternate\";type=\"application/signed-exchange;v=b3\";"
        ++ "variants-04=\"accept;image/jpeg,image/webp\";"
        ++ "variant-key-04=\"image/jpeg\";"
        ++ "anchor=\"https://" ++ env.demoDomainName
        ++ "/amptest/img/nikko_640.jpg\";")
    let w := headerAdd w "link"
      ("<https://" ++ rHost ++ "/sxg/nikko_640_webp.sxg>;"
        ++ "rel=\"alternate\";type=\"application/signed-exchange;v=b3\";"
        ++ "variants-04=\"accept;image/jpeg,image/webp\";"
        ++ "variant-key-04=\"image/webp\";"
        ++ "anchor=\"https://" ++ env.demoDomainName
        ++ "/amptest/img/nikko_640.jpg\";")
    let rh := headerAdd rh "link"
      ("<https://" ++ env.demoDomainName ++ "/amptest/img/nikko_320.jpg>;"
        ++ "rel=\"allowed-alt-sxg\";"
        ++ "variants-04=\"accept;image/jpeg,image/webp\";"
        ++ "variant-key-04=\"image/jpeg\";"
        ++ "header-integrity=\""
        ++ getHeaderIntegrity (env.demoDomainName ++ "/amptest/img/nikko_320.jpg")
             env.nikko_320_jpg_payload "image/jpeg" rHost false ++ "\"")
    let rh := headerAdd rh "link"
      ("<https://" ++ env.demoDomainName ++ "/amptest/img/nikko_320.jpg>;"
        ++ "rel=\"allowed-alt-sxg\";"
        ++ "variants-04=\"accept;image/jpeg,image/webp\";"
        ++ "variant-key-04=\"image/webp\";"
        ++ "header-integrity=\""
        ++ getHeaderIntegrity (env.demoDomainName ++ "/amptest/img/nikko_320.jpg")
             env.nikko_320_webp_payload "image/webp" rHost false ++ "\"")
    let rh := headerAdd rh "link"
      ("<https://" ++ env.demoDomainName ++ "/amptest/img/nikko_640.jpg>;"
        ++ "rel=\"allowed-alt-sxg\";"
        ++ "variants-04=\"accept;image/jpeg,image/webp\";"
        ++ "variant-key-04=\"image/jpeg\";"
        ++ "header-integrity=\""
        ++ getHeaderIntegrity (env.demoDomainName ++ "/amptest/img/nikko_640.jpg")
             env.nikko_640_jpg_payload "image/jpeg" rHost false ++ "\"")
    let rh := headerAdd rh "link"
      ("<https://" ++ env.demoDomainName ++ "/amptest/img/nikko_640.jpg>;"
        ++ "rel=\"allowed-alt-sxg\";"
        ++ "variants-04=\"accept;image/jpeg,image/webp\";"
        ++ "variant-key-04=\"image/webp\";"
        ++ "header-integrity=\""
        ++ getHeaderIntegrity (env.demoDomainName ++ "/amptest/img/nikko_640.jpg")
             env.nikko_640_webp_payload "image/webp" rHost false ++ "\"")
    let rh := headerAdd rh "link"
      ("<https://" ++ env.demoDomainName ++ "/amptest/img/nikko_640.jpg>;"
        ++ "rel=\"preload\";as=\"image\";"
        ++ "imagesrcset=\"https://" ++ env.demoDomainName
        ++ "/amptest/img/nikko_640.jpg 640w, "
        ++ "https://" ++ env.demoDomainName ++ "/amptest/img/nikko_320.jpg 320w\";"
        ++ "imagesizes=\"(max-width: 640px) 100vw, 640px\"")
    some
      ({ params with
          contentUrl :=
            "https://" ++ env.demoDomainName ++ "/amptest/amptestnocdn.html"
          payload := env.amptestnocdn_payload
          resHeader := rh } ,
       w)
  | "/sxg/amptestnocdn_js_preload_error.sxg" =>
    let w := headerAdd [] "link"
      ("<https://" ++ rHost ++ "/sxg/v0.sxg>;"
        ++ "rel=\"alternate\";type=\"application/signed-exchange;v=b3\";"
        ++ "anchor=\"https://" ++ env.demoDomainName ++ "/amptest/js/v0.js\";")
    let rh := headerAdd params.resHeader "link"
      ("<https://" ++ env.demoDomainName ++ "/amptest/js/v0.js>;"
        ++ "rel=\"allowed-alt-sxg\";"
        ++ "header-integrity=\""
        ++ getHeaderIntegrity (env.demoDomainName ++ "/amptest/js/v0.js")
             (env.v0js_payload.drop 1) "text/javascript" rHost false ++ "\"")
    let rh := headerAdd rh "link"
      ("<https://" ++ env.demoDomainName ++ "/amptest/js/v0.js>;"
        ++ "rel=\"preload\";" ++ "as=\"script\"")
    some
      ({ params with
          contentUrl :=
            "https://" ++ env.demoDomainName ++ "/amptest/amptestnocdn.html"
          payload := env.amptestnocdn_payload
          resHeader := rh } ,
       w)
  | "/sxg/amptestnocdn_js_img_preload_error.sxg" =>
    let w := headerAdd [] "link"
      ("<https://" ++ rHost ++ "/sxg/v0.sxg>;"
        ++ "rel=\"alternate\";type=\"application/signed-exchange;v=b3\";"
        ++ "anchor=\"https://" ++ env.demoDomainName ++ "/amptest/js/v0.js\";")
    let rh := headerAdd params.resHeader "link"
      ("<https://" ++ env.demoDomainName ++ "/amptest/js/v0.js>;"
        ++ "rel=\"allowed-alt-sxg\";"
        ++ "header-integrity=\""
        ++ getHeaderIntegrity (env.demoDomainName ++ "/amptest/js/v0.js")
             env.v0js_payload "text/javascript" rHost false ++ "\"")
    let rh := headerAdd rh "link"
      ("<https://" ++ env.demoDomainName ++ "/amptest/js/v0.js>;"
        ++ "rel=\"preload\";" ++ "as=\"script\"")
    let w := headerAdd w "link"
      ("<https://" ++ rHost ++ "/sxg/nikko_320_jpg.sxg>;"
        ++ "rel=\"alternate\";type=\"application/signed-exchange;v=b3\";"
        ++ "anchor=\"https://" ++ env.demoDomainName
        ++ "/amptest/img/nikko_320.jpg\";")
    let w := headerAdd w "link"
      ("<https://" ++ rHost ++ "/sxg/nikko_640_jpg.sxg>;"
        ++ "rel=\"alternate\";type=\"application/signed-exchange;v=b3\";"
        ++ "anchor=\"https://" ++ env.demoDomainName
        ++ "/amptest/img/nikko_640.jpg\";")
    let rh := headerAdd rh "link"
      ("<https://" ++ env.demoDomainName ++ "/amptest/img/nikko_320.jpg>;"
        ++ "rel=\"allowed-alt-sxg\";"
        ++ "header-integrity=\""
        ++ getHeaderIntegrity (env.demoDomainName ++ "/amptest/img/nikko_320.jpg")
             (env.nikko_320_jpg_payload.drop 1) "image/jpeg" rHost false ++ "\"")
    let rh := headerAdd rh "link"
      ("<https://" ++ env.demoDomainName ++ "/amptest/img/nikko_640.jpg>;"
        ++ "rel=\"allowed-alt-sxg\";"
        ++ "header-integrity=\""
        ++ getHeaderIntegrity (env.demoDomainName ++ "/amptest/img/nikko_640.jpg")
             (env.nikko_640_jpg_payload.drop 1) "image/jpeg" rHost false ++ "\"")
    let rh := headerAdd rh "link"
      ("<https://" ++ env.demoDomainName ++ "/amptest/img/nikko_640.jpg>;"
        ++ "rel=\"preload\";as=\"image\";"
        ++ "imagesrcset=\"https://" ++ env.demoDomainName
        ++ "/amptest/img/nikko_640.jpg 640w, "
        ++ "https://" ++ env.demoDomainName ++ "/amptest/img/nikko_320.jpg 320w\";"
        ++ "imagesizes=\"(max-width: 640px) 100vw, 640px\"")
    some
      ({ params with
          contentUrl :=
            "https://" ++ env.demoDomainName ++ "/amptest/amptestnocdn.html"
          payload := env.amptestnocdn_payload
          resHeader := rh } ,
       w)
  | "/sxg/v0.sxg" =>
    let w := headerAdd [] "cache-control" "public, max-age=600"
    some
      ({ params with
          contentUrl := "https://" ++ env.demoDomainName ++ "/amptest/js/v0.js"
          contentType := "text/javascript"
          payload := env.v0js_payload
          resHeader :=
            headerAdd params.resHeader "cache-control" "public, max-age=600" } ,
       w)
  | "/sxg/nikko_320_jpg.sxg" =>
    let w := headerAdd [] "cache-control" "public, max-age=600"
    some
      ({ params with
          contentUrl :=
            "https://" ++ env.demoDomainName ++ "/amptest/img/nikko_320.jpg"
          contentType := "image/jpeg"
          payload := env.nikko_320_jpg_payload
          resHeader :=
            headerAdd params.resHeader "cache-control" "public, max-age=600" } ,
       w)
  | "/sxg/nikko_320_webp.sxg" =>
    let w := headerAdd [] "cache-control" "public, max-age=600"
    some
      ({ params with
          contentUrl :=
            "https://" ++ env.demoDomainName ++ "/amptest/img/nikko_320.jpg"
          contentType := "image/webp"
          payload := env.nikko_320_webp_payload
          resHeader :=
            headerAdd params.resHeader "cache-control" "public, max-age=600" } ,
       w)
  | "/sxg/nikko_640_jpg.sxg" =>
    let w := headerAdd [] "cache-control" "public, max-age=600"
    some
      ({ params with
          contentUrl :=
            "https://" ++ env.demoDomainName ++ "/amptest/img/nikko_640.jpg"
          contentType := "image/jpeg"
          payload := env.nikko_640_jpg_payload
          resHeader :=
            headerAdd params.resHeader "cache-control" "public, max-age=600" } ,
       w)
  | "/sxg/nikko_640_webp.sxg" =>
    let w := headerAdd [] "cache-control" "public, max-age=600"
    some
      ({ params with
          contentUrl :=
            "https://" ++ env.demoDomainName ++ "/amptest/img/nikko_640.jpg"
          contentType := "image/webp"
          payload := env.nikko_640_webp_payload
          resHeader :=
            headerAdd params.resHeader "cache-control" "public, max-age=600" } ,
       w)
  | "/sxg/loop.sxg" =>
    let w := headerAdd [] "link"
      ("<https://" ++ rHost ++ "/sxg/a_css.sxg>;"
        ++ "rel=\"alternate\";type=\"application/signed-exchange;v=b3\";"
        ++ "anchor=\"https://" ++ env.demoDomainName ++ "/amptest/css/a.css\";")
    let rh := headerAdd params.resHeader "link"
      ("<https://" ++ env.demoDomainName ++ "/amptest/css/a.css>;"
        ++ "rel=\"allowed-alt-sxg\";"
        ++ "header-integrity=\""
        ++ getHeaderIntegrity (env.demoDomainName ++ "/amptest/css/a.css")
             [] "text/css" rHost false ++ "\"")
    let rh := headerAdd rh "link"
      ("<https://" ++ env.demoDomainName ++ "/amptest/css/a.css>;"
        ++ "rel=\"preload\";" ++ "as=\"style\"")
    some
      ({ params with
          contentUrl :=
            "https://" ++ env.demoDomainName ++ "/amptest/amptestnocdn.html"
          payload := env.amptestnocdn_payload
          resHeader := rh } ,
       w)
  | "/sxg/a_css.sxg" =>
    let w := headerAdd [] "link"
      ("<https://" ++ rHost ++ "/sxg/b_css.sxg>;"
        ++ "rel=\"alternate\";type=\"application/signed-exchange;v=b3\";"
        ++ "anchor=\"https://" ++ env.demoDomainName ++ "/amptest/css/b.css\";")
    let rh := headerAdd params.resHeader "link"
      ("<https://" ++ env.demoDomainName ++ "/amptest/css/b.css>;"
        ++ "rel=\"allowed-alt-sxg\";"
        ++ "header-integrity=\""
        ++ getHeaderIntegrity (env.demoDomainName ++ "/amptest/css/b.css")
             [] "text/css" rHost false ++ "\"")
    let rh := headerAdd rh "link"
      ("<https://" ++ env.demoDomainName ++ "/amptest/css/b.css>;"
        ++ "rel=\"preload\";" ++ "as=\"style\"")
    let rh := headerAdd rh "cache-control" "public, max-age=600"
    let w := headerAdd w "cache-control" "public, max-age=600"
    some
      ({ params with
          contentUrl := "https://" ++ env.demoDomainName ++ "/amptest/css/a.css"
          contentType := "text/css"
          payload := []
          resHeader := rh } ,
       w)
  | "/sxg/b_css.sxg" =>
    let w := headerAdd [] "link"
      ("<https://" ++ rHost ++ "/sxg/a_css.sxg>;"
        ++ "rel=\"alternate\";type=\"application/signed-exchange;v=b3\";"
        ++ "anchor=\"https://" ++ env.demoDomainName ++ "/amptest/css/a.css\";")
    let rh := headerAdd params.resHeader "link"
      ("<https://" ++ env.demoDomainName ++ "/amptest/css/a.css>;"
        ++ "rel=\"allowed-alt-sxg\";"
        ++ "header-integrity=\""
        ++ getHeaderIntegrity (env.demoDomainName ++ "/amptest/css/a.css")
             [] "text/css" rHost false ++ "\"")
    let rh := headerAdd rh "link"
      ("<https://" ++ env.demoDomainName ++ "/amptest/css/a.css>;"
        ++ "rel=\"preload\";" ++ "as=\"style\"")
    let rh := headerAdd rh "cache-control" "public, max-age=600"
    let w := headerAdd w "cache-control" "public, max-age=600"
    some
      ({ params with
          contentUrl := "https://" ++ env.demoDomainName ++ "/amptest/css/b.css"
          contentType := "text/css"
          payload := []
          resHeader := rh } ,
       w)
  | _ => none

/-- `signedExchangeHandler` of `part_000` (lines 124–543): select the
scenario for the request path and serve it — every known path ends in
`serveExchange` on its selected params and link decorations, every
unknown path in `http.Error(w, "signedExchangeHandler", 404)`. -/
def signedExchangeHandler (env : Env) (rHost : String) (path : String)
    (query : List (String × String)) : ServeResult :=
  match scenarioSelection env rHost path with
  | some pw => serveExchange pw.1 query pw.2
  | none => .httpError [] 404 "signedExchangeHandler"

/-! ## Claim theorems -/

/-- Whether a handler call wrote exchange bytes. -/
def ServeResult.isWrote : ServeResult → Bool
  | .wrote _ _ => true
  | .httpError _ _ _ => false

/-- C9: the header-integrity oracle ignores its `host` argument — two
calls differing only in the host value return the same string. -/
theorem c9_host_independent (domainAndPath : String) (payload : List Nat)
    (contentType : String) (host1 host2 : String) (cors : Bool) :
    getHeaderIntegrity domainAndPath payload contentType host1 cors =
      getHeaderIntegrity domainAndPath payload contentType host2 cors := rfl

/-- C6: the header-integrity oracle is deterministic and idempotent — any
two calls on identical input tuples return the identical string; its
embedding is a pure function of its arguments, taking no effect
parameters. -/
theorem c6_deterministic (d1 d2 : String) (p1 p2 : List Nat)
    (ct1 ct2 h1 h2 : String) (b1 b2 : Bool)
    (hd : d1 = d2) (hp : p1 = p2) (hct : ct1 = ct2) (hh : h1 = h2)
    (hb : b1 = b2) :
    getHeaderIntegrity d1 p1 ct1 h1 b1 = getHeaderIntegrity d2 p2 ct2 h2 b2 := by
  subst hd; subst hp; subst hct; subst hh; subst hb; rfl

/-- Witness for C6 at one concrete tuple. -/
theorem c6_deterministic_witness :
    getHeaderIntegrity "a.test/x.css" [] "text/css" "host.test" false =
      getHeaderIntegrity "a.test/x.css" [] "text/css" "host.test" false :=
  c6_deterministic "a.test/x.css" "a.test/x.css" [] [] "text/css" "text/css"
    "host.test" "host.test" false false rfl rfl rfl rfl rfl

/-- C10: `createExchange` mutates its params only by appending the single
`content-type` entry to the response headers — every pre-existing entry
survives unchanged (the header list is extended, never rewritten) and
every other field is untouched. -/
theorem c10_create_exchange_frame (p : ExchangeParams) :
    (createExchange p).2.resHeader =
        p.resHeader ++ [("content-type", p.contentType)]
    ∧ (∀ kv, kv ∈ p.resHeader → kv ∈ (createExchange p).2.resHeader)
    ∧ (createExchange p).2.ver = p.ver
    ∧ (createExchange p).2.contentUrl = p.contentUrl
    ∧ (createExchange p).2.certUrl = p.certUrl
    ∧ (createExchange p).2.validityUrl = p.validityUrl
    ∧ (createExchange p).2.contentType = p.contentType
    ∧ (createExchange p).2.payload = p.payload
    ∧ (createExchange p).2.date = p.date
    ∧ (createExchange p).2.signFn = p.signFn := by
  have hsnd : (createExchange p).2 =
      { p with resHeader := headerAdd p.resHeader "content-type" p.contentType } := by
    unfold createExchange
    dsimp only
    split
    · rfl
    · split <;> rfl
  rw [hsnd]
  refine ⟨rfl, ?_, rfl, rfl, rfl, rfl, rfl, rfl, rfl, rfl⟩
  intro kv hkv
  exact List.mem_append_left _ hkv

/-- C4: `getOCSP` on a certificate list with no issuer (fewer than two
entries) or a leaf advertising no OCSP responder returns a
ProtocolError-class error; the function is total, so no input panics. -/
theorem c4_ocsp_guard_errors (certs : List Certificate) (net : OcspEnv)
    (h : certs.length < 2 ∨
      ∃ c rest, certs = c :: rest ∧ c.ocspServer = []) :
    ∃ m, getOCSP certs net = .error (.protocolError m) := by
  rcases h with hlen | ⟨c, rest, hc, hocsp⟩
  · match certs, hlen with
    | [], _ => exact ⟨"failed to parse cert", rfl⟩
    | [a], _ => exact ⟨"failed to parse cert", rfl⟩
    | a :: b :: t, hlen => simp at hlen; omega
  · subst hc
    match rest with
    | [] => exact ⟨"failed to parse cert", rfl⟩
    | i :: t =>
      refine ⟨"No OCSPServer", ?_⟩
      unfold getOCSP
      dsimp only
      rw [hocsp]

/-- Witness for C4: the empty certificate list satisfies the guard and
yields a ProtocolError. -/
theorem c4_ocsp_guard_errors_witness :
    ([] : List Certificate).length < 2
    ∧ ∃ m, getOCSP [] ⟨fun _ _ => .ok [], fun _ _ => .ok []⟩ =
        .error (.protocolError m) :=
  ⟨by decide,
   c4_ocsp_guard_errors [] ⟨fun _ _ => .ok [], fun _ _ => .ok []⟩
     (Or.inl (by decide))⟩

/-- C7: the empty payload is not an error case — MI-encoding an exchange
whose payload is empty succeeds, and the oracle on an empty `text/css`
payload without CORS returns a non-empty digest string. -/
theorem c7_empty_payload (e : Exchange) (he : e.payload = [])
    (d host : String) :
    (miEncodePayload 4096 e).isOk = true
    ∧ getHeaderIntegrity d [] "text/css" host false ≠ "" := by
  constructor
  · simp [miEncodePayload, Except.isOk, Except.toBool]
  · intro hcontra
    have hlen := congrArg String.length hcontra
    simp only [getHeaderIntegrity, miEncodePayload_4096, dumpExchangeHeaders,
      String.length_append] at hlen
    have h7 : "sha256-".length = 7 := rfl
    have h0 : "".length = 0 := rfl
    omega

/-- Witness for C7 at a concrete empty-payload exchange. -/
theorem c7_empty_payload_witness :
    (newExchange .version1b3 "https://a.test/e.css" "GET" [] 200 [] []).payload = []
    ∧ ((miEncodePayload 4096
          (newExchange .version1b3 "https://a.test/e.css" "GET" [] 200 [] [])).isOk = true
       ∧ getHeaderIntegrity "a.test/e.css" [] "text/css" "host.test" false ≠ "") :=
  ⟨rfl,
   c7_empty_payload
     (newExchange .version1b3 "https://a.test/e.css" "GET" [] 200 [] []) rfl
     "a.test/e.css" "host.test"⟩

/-- C5: the oracle never returns a malformed non-empty digest: every
result is either the empty-string failure sentinel (the value of both
error arms of its definition) or exactly `"sha256-"` plus the base64 of
the SHA-256 of the serialized header block it computed. -/
theorem c5_empty_or_wellformed (d : String) (p : List Nat)
    (ct host : String) (cors : Bool) :
    getHeaderIntegrity d p ct host cors = ""
    ∨ ∃ bs, getHeaderIntegrity d p ct host cors =
        "sha256-" ++ base64Encode (sha256 bs) := by
  right
  refine ⟨dumpBytes (miTransform 4096
    (newExchange .version1b3 ("https://" ++ d) "GET" [] 200
      (if cors then
        headerAdd (headerAdd (headerAdd ([] : Header) "cache-control"
          "public, max-age=600") "content-type" ct)
          "Access-Control-Allow-Origin" "*"
       else
        headerAdd (headerAdd ([] : Header) "cache-control"
          "public, max-age=600") "content-type" ct) p)), ?_⟩
  cases cors <;>
    simp only [getHeaderIntegrity, miEncodePayload_4096, dumpExchangeHeaders,
      Bool.false_eq_true, if_false, if_true]

/-- Concrete params for C2: target, certificate-chain and validity URLs
are all plain-HTTP (not valid absolute HTTPS URLs), with an otherwise
working signing setup. -/
def c2Params : ExchangeParams :=
  { ver := .version1b3
    contentUrl := "http://insecure.example/hello.html"
    certUrl := "http://insecure.example/cert.cbor"
    validityUrl := "http://insecure.example/null.validity.msg"
    contentType := "text/html; charset=utf-8"
    resHeader := []
    payload := []
    date := 0
    signFn := fun _ => .ok [] }

/-- C2 (code-bug evidence): `createExchange` performs no URL validation —
the `url.Parse` errors are discarded (`certUrl, _ := url.Parse(...)`) and
no scheme is ever inspected — so a request whose target, chain and
validity URLs are all plain HTTP is not rejected with a ConfigError: the
exchange is built, and `serveExchange` writes its bytes. -/
theorem c2_create_exchange_accepts_non_https :
    (createExchange c2Params).1.isOk = true
    ∧ (serveExchange c2Params [] []).isWrote = true := ⟨rfl, rfl⟩

/-- C3: every successfully created exchange carries a signature header
whose `date` is exactly the params' signing time and whose `expires` is
exactly that time plus 24 hours. -/
theorem c3_signature_window (p : ExchangeParams) (e : Exchange)
    (h : (createExchange p).1 = .ok e) :
    ∃ sh : SigHeader, e.signatureHeaderValue = some sh
      ∧ sh.date = p.date ∧ sh.expires = p.date + 24 * 60 * 60 := by
  unfold createExchange at h
  simp only [miEncodePayload_4096] at h
  unfold addSignatureHeader at h
  simp only [dumpExchangeHeaders] at h
  split at h
  · simp at h
  · rename_i e3 heq
    dsimp only at h
    injection h with h'
    subst h'
    split at heq
    · simp at heq
    · rename_i sig heq2
      injection heq with h''
      subst h''
      exact ⟨_, rfl, rfl, rfl⟩

/-- Concrete params for the C3 witness. -/
def c3Params : ExchangeParams :=
  { ver := .version1b3
    contentUrl := "https://a.test/x.html"
    certUrl := "https://h.test/cert.cbor"
    validityUrl := "https://a.test/v.msg"
    contentType := "text/html"
    resHeader := []
    payload := []
    date := 1000
    signFn := fun _ => .ok [] }

/-- The exchange the C3 witness params produce. -/
def c3Exchange : Exchange :=
  match (createExchange c3Params).1 with
  | .ok e => e
  | .error _ => defaultExchange

/-- Witness for C3 at the concrete params. -/
theorem c3_signature_window_witness :
    (createExchange c3Params).1 = .ok c3Exchange
    ∧ ∃ sh : SigHeader, c3Exchange.signatureHeaderValue = some sh
        ∧ sh.date = c3Params.date ∧ sh.expires = c3Params.date + 24 * 60 * 60 :=
  ⟨rfl, c3_signature_window c3Params c3Exchange rfl⟩

/-- A failing `serveExchange` call answers exactly HTTP 500, and its
body is the message of the very error `createExchange` returned on the
params it was called with. -/
theorem serveExchange_httpError (p : ExchangeParams)
    (q : List (String × String)) (w wh : Header) (st : Nat) (b : String)
    (h : serveExchange p q w = .httpError wh st b) :
    st = 500 ∧ ∃ err : CoreErr,
      (createExchange p).1 = Except.error err ∧ b = err.message := by
  unfold serveExchange at h
  split at h
  · rename_i err heq
    injection h with h1 h2 h3
    exact ⟨h2.symm, err, heq, h3.symm⟩
  · exact ServeResult.noConfusion h

/-- C8: every error the handler core can answer is either HTTP 500 whose
body is the message of the error `createExchange` actually produced on
the params the scenario table selected for this very path, or HTTP 404
with the `signedExchangeHandler` marker exactly when the path selects no
scenario; no other error status exists. -/
theorem c8_handler_status_codes (env : Env) (rHost path : String)
    (query : List (String × String)) (wh : Header) (st : Nat) (b : String)
    (h : signedExchangeHandler env rHost path query = .httpError wh st b) :
    (st = 500 ∧ ∃ p w err, scenarioSelection env rHost path = some (p, w)
        ∧ (createExchange p).1 = Except.error err ∧ b = err.message)
    ∨ (st = 404 ∧ scenarioSelection env rHost path = none
        ∧ b = "signedExchangeHandler") := by
  unfold signedExchangeHandler at h
  split at h
  · rename_i pw heq
    rcases serveExchange_httpError pw.1 query pw.2 wh st b h with
      ⟨h500, err, hc, hb⟩
    exact Or.inl ⟨h500, pw.1, pw.2, err, by rw [heq], hc, hb⟩
  · rename_i heq
    injection h with h1 h2 h3
    exact Or.inr ⟨h2.symm, heq, h3.symm⟩

/-- A concrete environment for the C8 witness. -/
def c8Env : Env :=
  { demoDomainName := "a.test"
    altDemoDomainName := "b.test"
    certURLPath := "/cert/cert.cbor"
    altCertURLPath := "/cert/alt_cert.cbor"
    now := 100
    signFn := fun _ => .ok []
    altSignFn := fun _ => .ok []
    amptestnocdn_payload := []
    v0js_payload := []
    nikko_320_jpg_payload := []
    nikko_640_jpg_payload := []
    nikko_320_webp_payload := []
    nikko_640_webp_payload := []
    wapuro_mincho_payload := []
    fonttest_payload := [] }

/-- The C8 witness environment: the primary signing primitive fails with
a SigningError carrying a recognizable message. -/
def c8ErrEnv : Env :=
  { c8Env with signFn := fun _ => .error (.signingError "sign failed") }

/-- Witness for C8: a known path whose signing fails lands in the 500
arm, with the failing error's message as body. -/
theorem c8_handler_status_codes_witness :
    signedExchangeHandler c8ErrEnv "h.test" "/sxg/hello.sxg" [] =
      .httpError [] 500 "sign failed"
    ∧ ((500 = 500 ∧ ∃ p w err,
          scenarioSelection c8ErrEnv "h.test" "/sxg/hello.sxg" = some (p, w)
          ∧ (createExchange p).1 = Except.error err
          ∧ "sign failed" = err.message)
       ∨ (500 = 404 ∧ scenarioSelection c8ErrEnv "h.test" "/sxg/hello.sxg" = none
          ∧ "sign failed" = "signedExchangeHandler")) :=
  ⟨rfl, c8_handler_status_codes c8ErrEnv "h.test" "/sxg/hello.sxg" [] [] 500
    "sign failed" rfl⟩

/-- The `exchangeParams` the serving handler builds for a payload
resource served with or without CORS (cases such as `/sxg/a_css.sxg` and
`/sxg/cors_wapuro-mincho.woff2.sxg`): the fixed `cache-control` response
header first, then the `Access-Control-Allow-Origin: *` entry exactly
when CORS is on; `createExchange` itself appends the `content-type`
entry.  Certificate-chain URL, validity URL, signing time and signing
primitive are free. -/
def fullPathParams (domainAndPath : String) (payload : List Nat)
    (contentType : String) (cors : Bool) (certUrl validityUrl : String)
    (date : Nat) (signFn : List Nat → Except CoreErr (List Nat)) :
    ExchangeParams :=
  { ver := .version1b3
    contentUrl := "https://" ++ domainAndPath
    certUrl := certUrl
    validityUrl := validityUrl
    contentType := contentType
    resHeader :=
      (if cors then
        headerAdd (headerAdd ([] : Header) "cache-control" "public, max-age=600")
          "Access-Control-Allow-Origin" "*"
       else headerAdd ([] : Header) "cache-control" "public, max-age=600")
    payload := payload
    date := date
    signFn := signFn }

/-- C1: for every (url, payload, content type, CORS flag) tuple, the
oracle's string equals `"sha256-"` plus the base64 of the SHA-256 of
exactly the header block that building the full exchange with the same
inputs and dumping its exchange headers produces — the two code paths
agree byte for byte on the headers portion, whatever the chain URL,
validity URL, signing time and signing primitive of the full path. -/
theorem c1_header_integrity_refinement (d ct cu vu : String) (p : List Nat)
    (cors : Bool) (dt : Nat) (sf : List Nat → Except CoreErr (List Nat))
    (host : String) (e : Exchange) (bs : List Nat)
    (h1 : (createExchange (fullPathParams d p ct cors cu vu dt sf)).1 = .ok e)
    (h2 : dumpExchangeHeaders e = .ok bs) :
    getHeaderIntegrity d p ct host cors =
      "sha256-" ++ base64Encode (sha256 bs) := by
  unfold createExchange at h1
  simp only [miEncodePayload_4096] at h1
  unfold addSignatureHeader at h1
  simp only [dumpExchangeHeaders] at h1
  split at h1
  · simp at h1
  · rename_i e3 heq
    dsimp only at h1
    injection h1 with h'
    subst h'
    split at heq
    · simp at heq
    · rename_i sig heq2
      injection heq with h''
      subst h''
      unfold dumpExchangeHeaders at h2
      injection h2 with hbs
      subst hbs
      cases cors <;> rfl

/-- Concrete full-path params for the C1 witness. -/
def c1Params : ExchangeParams :=
  fullPathParams "a.test/x.css" [] "text/css" true "https://h.test/cert.cbor"
    "https://a.test/v.msg" 0 (fun _ => .ok [])

/-- The exchange the C1 witness params produce. -/
def c1Exchange : Exchange :=
  match (createExchange c1Params).1 with
  | .ok e => e
  | .error _ => defaultExchange

/-- The dumped header block of the C1 witness exchange. -/
def c1Bytes : List Nat :=
  match dumpExchangeHeaders c1Exchange with
  | .ok bs => bs
  | .error _ => []

/-- Witness for C1 at one concrete tuple with CORS on. -/
theorem c1_header_integrity_refinement_witness :
    (createExchange c1Params).1 = .ok c1Exchange
    ∧ dumpExchangeHeaders c1Exchange = .ok c1Bytes
    ∧ getHeaderIntegrity "a.test/x.css" [] "text/css" "host.test" true =
        "sha256-" ++ base64Encode (sha256 c1Bytes) :=
  ⟨rfl, rfl,
   c1_header_integrity_refinement "a.test/x.css" "text/css"
     "https://h.test/cert.cbor" "https://a.test/v.msg" [] true 0
     (fun _ => .ok []) "host.test" c1Exchange c1Bytes rfl rfl⟩

/-- Concrete params for the C10 witness, carrying one pre-existing
response-header entry. -/
def c10Params : ExchangeParams :=
  { ver := .version1b3
    contentUrl := "https://a.test/x.css"
    certUrl := "https://h.test/cert.cbor"
    validityUrl := "https://a.test/v.msg"
    contentType := "text/css"
    resHeader := [("x-demo", "1")]
    payload := []
    date := 0
    signFn := fun _ => .ok [] }

/-- Witness for C10: the pre-existing entry survives the call. -/
theorem c10_create_exchange_frame_witness :
    ("x-demo", "1") ∈ c10Params.resHeader
    ∧ ("x-demo", "1") ∈ (createExchange c10Params).2.resHeader :=
  ⟨by simp [c10Params],
   (c10_create_exchange_frame c10Params).2.1 ("x-demo", "1")
     (by simp [c10Params])⟩
